import Mathlib

/-!
# WS2812 ("neopixel") PIO driver: `src/logic/ws2812/neopixel.{c,h}`

A shallow embedding of the two driver functions `init_neopixel` and
`write_pixels`.

The driver is a thin layer over an external peripheral library (`piolib.h`,
`ws2812.pio.h`) and `printf`.  None of those is part of the driver, so

* every call the driver makes to them is recorded, with the values of its
  argument expressions, as a `Call` appended to the `World` (the chronological
  list of external calls made so far);
* what the library answers (`pio0`, the slot returned by
  `pio_claim_unused_sm`, the offset returned by `pio_add_program`, the contents
  of the caller's buffer once `pio_sm_xfer_data` has returned) is a parameter,
  `PioLib`, whose answers may depend on the whole history of calls.

C integers are `Nat`/`Int` with explicit 32-bit wrap-around.
-/

namespace Neopixel

/-! ## Machine integers -/

/-- Smallest value of the 32-bit C type `int`. -/
def INT_MIN : Int := -2147483648

/-- Largest value of the 32-bit C type `int`. -/
def INT_MAX : Int := 2147483647

/-- The conversion `unsigned int → int` performed by the assignment
`info.num_pixels = num_pixels;` (value kept when it fits, otherwise reduced
modulo `2^32` into the range of `int`). -/
def uint_to_int (n : Nat) : Int :=
  if n % 4294967296 < 2147483648 then ((n % 4294967296 : Nat) : Int)
  else ((n % 4294967296 : Nat) : Int) - 4294967296

/-- Whether the C product `a * b` of two `int`s leaves the range of `int`. -/
def int_mul_overflows (a b : Int) : Bool :=
  decide (a * b < INT_MIN) || decide (INT_MAX < a * b)

/-- The C product `a * b` in type `int`: the mathematical product when it is
representable, wrapped into the 32-bit two's-complement range otherwise. -/
def int_mul (a b : Int) : Int :=
  (a * b + 2147483648) % 4294967296 - 2147483648

/-! ## Data model -/

/-- A `void *` value. -/
abbrev Ptr := Nat

/-- A `uint8_t` value. -/
abbrev Byte := Fin 256

/-- The struct `pio_info_t` of `neopixel.h`: three fields, in this order. -/
structure pio_info_t where
  pio_ptr : Ptr
  sm : Int
  num_pixels : Int
deriving DecidableEq, Repr

/-- Transfer direction constants of the peripheral library; the driver only
ever names `PIO_DIR_TO_SM` (host to device). -/
inductive xfer_dir where
  | PIO_DIR_TO_SM
  | PIO_DIR_FROM_SM
deriving DecidableEq, Repr

/-- Program objects whose address the driver passes to `pio_add_program`; the
driver only names `ws2812_program`. -/
inductive pio_program where
  | ws2812_program
deriving DecidableEq, Repr

/-- One call from the driver to code outside it, with the values of the
argument expressions at the call site (floating-point literals `1.0` and
`800000.0` are carried by their integer value). -/
inductive Call where
  | pio_claim_unused_sm (pio : Ptr) (required : Bool)
  | pio_sm_config_xfer (pio : Ptr) (sm : Int) (dir : xfer_dir) (buf_size : Nat) (buf_count : Nat)
  | pio_add_program (pio : Ptr) (program : pio_program)
  | printf (format : String) (args : List Int)
  | pio_sm_clear_fifos (pio : Ptr) (sm : Int)
  | pio_sm_set_clkdiv (pio : Ptr) (sm : Int) (div : Nat)
  | ws2812_program_init (pio : Ptr) (sm : Int) (offset : Nat) (pin : Nat) (freq : Nat) (rgbw : Bool)
  | pio_sm_xfer_data (pio : Ptr) (sm : Int) (dir : xfer_dir) (data_bytes : Int) (data : List Byte)
deriving DecidableEq, Repr

/-- The external calls made so far, oldest first. -/
abbrev World := List Call

/-- Whether a call goes to the peripheral library (everything but the
diagnostic `printf`). -/
def Call.is_pio : Call → Bool
  | Call.printf _ _ => false
  | _ => true

/-- Whether a call is a data transfer request. -/
def Call.is_xfer : Call → Bool
  | Call.pio_sm_xfer_data _ _ _ _ _ => true
  | _ => false

/-- The answers of the peripheral library, each a function of the history of
calls and of the arguments of the call:
* `pio0`: the value of the expression `pio0`;
* `pio_claim_unused_sm`: the `int` the claim returns;
* `pio_add_program`: the value stored in the `unsigned int offset`;
* `pio_sm_xfer_data`: the contents of the caller's buffer when the transfer
  call has returned. -/
structure PioLib where
  pio0 : Ptr
  pio_claim_unused_sm : World → Ptr → Bool → Int
  pio_add_program : World → Ptr → pio_program → Nat
  pio_sm_xfer_data : World → Ptr → Int → xfer_dir → Int → List Byte → List Byte

/-! ## The driver -/

/-- The function `init_neopixel` of `neopixel.c`, lines 7-24: returns the
handle and the world after the call. -/
def init_neopixel (lib : PioLib) (w : World) (num_pixels gpio : Nat) : pio_info_t × World :=
  let pio_ptr := lib.pio0
  let sm := lib.pio_claim_unused_sm w pio_ptr true
  let w1 := w ++ [Call.pio_claim_unused_sm pio_ptr true]
  let info : pio_info_t := { pio_ptr := pio_ptr, sm := sm, num_pixels := uint_to_int num_pixels }
  let w2 := w1 ++ [Call.pio_sm_config_xfer info.pio_ptr info.sm xfer_dir.PIO_DIR_TO_SM 256 1]
  let offset := lib.pio_add_program w2 info.pio_ptr pio_program.ws2812_program
  let w3 := w2 ++ [Call.pio_add_program info.pio_ptr pio_program.ws2812_program]
  let w4 := w3 ++ [Call.printf "Loaded program at %d, using sm %d, gpio %d\n"
    [(offset : Int), info.sm, (gpio : Int)]]
  let w5 := w4 ++ [Call.pio_sm_clear_fifos info.pio_ptr info.sm]
  let w6 := w5 ++ [Call.pio_sm_set_clkdiv info.pio_ptr info.sm 1]
  let w7 := w6 ++ [Call.ws2812_program_init info.pio_ptr info.sm offset gpio 800000 false]
  (info, w7)

/-- State after `write_pixels`: the handle behind the pointer argument, the
contents of the caller's buffer, and the world. -/
structure write_state where
  pio : pio_info_t
  data : List Byte
  world : World

/-- The function `write_pixels` of `neopixel.c`, lines 27-29. -/
def write_pixels (lib : PioLib) (w : World) (pio : pio_info_t) (data : List Byte) : write_state :=
  let data_bytes := int_mul pio.num_pixels 4
  { pio := pio
    data := lib.pio_sm_xfer_data w pio.pio_ptr pio.sm xfer_dir.PIO_DIR_TO_SM data_bytes data
    world := w ++ [Call.pio_sm_xfer_data pio.pio_ptr pio.sm xfer_dir.PIO_DIR_TO_SM data_bytes data] }

/-- A caller issuing one `write_pixels` per buffer of `bufs`, in order, always
through the same handle variable. -/
def write_all (lib : PioLib) (w : World) (pio : pio_info_t) : List (List Byte) → pio_info_t × World
  | [] => (pio, w)
  | d :: ds => write_all lib (write_pixels lib w pio d).world (write_pixels lib w pio d).pio ds

/-! ## The transfer primitive as the specification describes it -/

/-- Modelled from the spec: what the transfer primitive `pio_sm_xfer_data` of
the peripheral library (not part of the driver sources) leaves in the buffer it
is given. The specification says of the buffer that the driver "only reads it
during the transfer call", that the transfer is "directionally host-to-device",
and that a write is a "read-only pass-through". So a host-to-device transfer
returns with the buffer as it was; what a transfer in the other direction
leaves in the buffer is not described and stays the answer of `lib`. Every
other answer of `lib` is kept. -/
def spec_xfer_lib (lib : PioLib) : PioLib :=
  { pio0 := lib.pio0
    pio_claim_unused_sm := lib.pio_claim_unused_sm
    pio_add_program := lib.pio_add_program
    pio_sm_xfer_data := fun w p s dir n d =>
      match dir with
      | xfer_dir.PIO_DIR_TO_SM => d
      | xfer_dir.PIO_DIR_FROM_SM => lib.pio_sm_xfer_data w p s dir n d }

/-! ## Concrete answers, for closed examples -/

/-- Example answers on a unit nothing has used yet: `pio0` is `4096`, the claim
answers slot `0`, programs load at offset `28`; a host-to-device transfer
leaves the buffer alone, a device-to-host transfer overwrites it. -/
def fresh_unit_lib : PioLib where
  pio0 := 4096
  pio_claim_unused_sm := fun _ _ _ => 0
  pio_add_program := fun _ _ _ => 28
  pio_sm_xfer_data := fun _ _ _ dir _ d =>
    match dir with
    | xfer_dir.PIO_DIR_TO_SM => d
    | xfer_dir.PIO_DIR_FROM_SM => d.map (fun _ => 0)

/-! ## Lemmas shared by the results below -/

/-- A count below `2^31` survives the conversion `unsigned int → int`. -/
theorem uint_to_int_of_lt (n : Nat) (h : n < 2147483648) : uint_to_int n = (n : Int) := by
  unfold uint_to_int
  have hmod : n % 4294967296 = n := Nat.mod_eq_of_lt (by omega)
  rw [hmod, if_pos h]

/-- A product that does not overflow is computed exactly by `int_mul`. -/
theorem int_mul_exact (a b : Int) (h : int_mul_overflows a b = false) : int_mul a b = a * b := by
  unfold int_mul_overflows INT_MIN INT_MAX at h
  simp only [Bool.or_eq_false_iff, decide_eq_false_iff_not, not_lt] at h
  unfold int_mul
  omega

/-- The handle `init_neopixel` returns, field by field. -/
theorem init_neopixel_handle (lib : PioLib) (w : World) (num_pixels gpio : Nat) :
    (init_neopixel lib w num_pixels gpio).1
      = { pio_ptr := lib.pio0
          sm := lib.pio_claim_unused_sm w lib.pio0 true
          num_pixels := uint_to_int num_pixels } := rfl

/-- The calls `init_neopixel` makes, in order, diagnostic included. -/
theorem init_neopixel_world (lib : PioLib) (w : World) (num_pixels gpio : Nat) :
    (init_neopixel lib w num_pixels gpio).2
      = w ++
        [ Call.pio_claim_unused_sm lib.pio0 true,
          Call.pio_sm_config_xfer lib.pio0 (lib.pio_claim_unused_sm w lib.pio0 true)
            xfer_dir.PIO_DIR_TO_SM 256 1,
          Call.pio_add_program lib.pio0 pio_program.ws2812_program,
          Call.printf "Loaded program at %d, using sm %d, gpio %d\n"
            [ ((lib.pio_add_program
                  (w ++ [Call.pio_claim_unused_sm lib.pio0 true,
                         Call.pio_sm_config_xfer lib.pio0
                           (lib.pio_claim_unused_sm w lib.pio0 true)
                           xfer_dir.PIO_DIR_TO_SM 256 1])
                  lib.pio0 pio_program.ws2812_program : Nat) : Int),
              lib.pio_claim_unused_sm w lib.pio0 true,
              (gpio : Int) ],
          Call.pio_sm_clear_fifos lib.pio0 (lib.pio_claim_unused_sm w lib.pio0 true),
          Call.pio_sm_set_clkdiv lib.pio0 (lib.pio_claim_unused_sm w lib.pio0 true) 1,
          Call.ws2812_program_init lib.pio0 (lib.pio_claim_unused_sm w lib.pio0 true)
            (lib.pio_add_program
              (w ++ [Call.pio_claim_unused_sm lib.pio0 true,
                     Call.pio_sm_config_xfer lib.pio0
                       (lib.pio_claim_unused_sm w lib.pio0 true)
                       xfer_dir.PIO_DIR_TO_SM 256 1])
              lib.pio0 pio_program.ws2812_program)
            gpio 800000 false ] := by
  simp [init_neopixel]

/-- The one call `write_pixels` makes. -/
theorem write_pixels_world (lib : PioLib) (w : World) (pio : pio_info_t) (data : List Byte) :
    (write_pixels lib w pio data).world
      = w ++ [Call.pio_sm_xfer_data pio.pio_ptr pio.sm xfer_dir.PIO_DIR_TO_SM
                (int_mul pio.num_pixels 4) data] := rfl

/-- Successive writes through one handle: the handle stays, each buffer gives
one transfer request with the same unit, slot and byte count. -/
theorem write_all_eq (lib : PioLib) (pio : pio_info_t) (bufs : List (List Byte)) :
    ∀ w : World, write_all lib w pio bufs
      = (pio, w ++ bufs.map (fun d =>
          Call.pio_sm_xfer_data pio.pio_ptr pio.sm xfer_dir.PIO_DIR_TO_SM
            (int_mul pio.num_pixels 4) d)) := by
  induction bufs with
  | nil => intro w; simp [write_all]
  | cons d ds ih =>
    intro w
    simp [write_all, write_pixels, ih]

/-! ## Initialisation -/

/-- Claim C1. For every pixel count with `0 < pixel_count ≤ 2^31 - 1` and every
pin, the handle returned by `init_neopixel` has `num_pixels` equal to the
requested count, whatever the library answers (in particular whatever slot the
claim returns) and whatever calls were made before. -/
theorem init_neopixel_num_pixels (lib : PioLib) (w : World) (pixel_count gpio : Nat)
    (hpos : 0 < pixel_count) (hmax : pixel_count ≤ 2147483647) :
    (init_neopixel lib w pixel_count gpio).1.num_pixels = (pixel_count : Int) := by
  have hlt : pixel_count < 2147483648 := by omega
  rw [init_neopixel_handle]
  exact uint_to_int_of_lt pixel_count hlt

/-- Claim C1 at the largest admitted count, `2^31 - 1`, on pin 6. -/
theorem init_neopixel_num_pixels_witness :
    0 < 2147483647 ∧ 2147483647 ≤ 2147483647 ∧
    (init_neopixel fresh_unit_lib [] 2147483647 6).1.num_pixels = 2147483647 :=
  ⟨by decide, by decide,
    init_neopixel_num_pixels fresh_unit_lib [] 2147483647 6 (by decide) (by decide)⟩

/-- Claim C2 fails as stated: pins 6 and 7 are different, yet the two handles
`init_neopixel` returns for them (same count, same library, same history) are
the same handle, so the pin cannot be read back from it. -/
theorem init_neopixel_handle_pin_counterexample :
    (6 : Nat) ≠ 7 ∧
    (init_neopixel fresh_unit_lib [] 1 6).1 = (init_neopixel fresh_unit_lib [] 1 7).1 := by
  decide

/-- Claim C2 as amended. The handle returned by `init_neopixel` describes the
unit, the slot and the pixel count, not the pin: it is the triple (`pio0`, slot
returned by the claim, converted count), and the handles returned for any two
pins are equal. The pin goes to the diagnostic line and to the program start
and nowhere else: the calls made are exactly the seven listed, the pin being
the last argument of the `printf` and the pin argument of
`ws2812_program_init`, and the five other calls are the same whatever the
pin. -/
theorem init_neopixel_handle_without_pin (lib : PioLib) (w : World)
    (pixel_count gpio1 gpio2 : Nat) :
    (init_neopixel lib w pixel_count gpio1).1 = (init_neopixel lib w pixel_count gpio2).1 ∧
    (init_neopixel lib w pixel_count gpio1).1
      = { pio_ptr := lib.pio0
          sm := lib.pio_claim_unused_sm w lib.pio0 true
          num_pixels := uint_to_int pixel_count } ∧
    (init_neopixel lib w pixel_count gpio1).2
      = w ++
        [ Call.pio_claim_unused_sm lib.pio0 true,
          Call.pio_sm_config_xfer lib.pio0 (lib.pio_claim_unused_sm w lib.pio0 true)
            xfer_dir.PIO_DIR_TO_SM 256 1,
          Call.pio_add_program lib.pio0 pio_program.ws2812_program,
          Call.printf "Loaded program at %d, using sm %d, gpio %d\n"
            [ ((lib.pio_add_program
                  (w ++ [Call.pio_claim_unused_sm lib.pio0 true,
                         Call.pio_sm_config_xfer lib.pio0 (lib.pio_claim_unused_sm w lib.pio0 true)
                           xfer_dir.PIO_DIR_TO_SM 256 1])
                  lib.pio0 pio_program.ws2812_program : Nat) : Int),
              lib.pio_claim_unused_sm w lib.pio0 true,
              (gpio1 : Int) ],
          Call.pio_sm_clear_fifos lib.pio0 (lib.pio_claim_unused_sm w lib.pio0 true),
          Call.pio_sm_set_clkdiv lib.pio0 (lib.pio_claim_unused_sm w lib.pio0 true) 1,
          Call.ws2812_program_init lib.pio0 (lib.pio_claim_unused_sm w lib.pio0 true)
            (lib.pio_add_program
              (w ++ [Call.pio_claim_unused_sm lib.pio0 true,
                     Call.pio_sm_config_xfer lib.pio0 (lib.pio_claim_unused_sm w lib.pio0 true)
                       xfer_dir.PIO_DIR_TO_SM 256 1])
              lib.pio0 pio_program.ws2812_program)
            gpio1 800000 false ] ∧
    (((init_neopixel lib w pixel_count gpio1).2.drop w.length).filter Call.is_pio).dropLast
      = [ Call.pio_claim_unused_sm lib.pio0 true,
          Call.pio_sm_config_xfer lib.pio0 (lib.pio_claim_unused_sm w lib.pio0 true)
            xfer_dir.PIO_DIR_TO_SM 256 1,
          Call.pio_add_program lib.pio0 pio_program.ws2812_program,
          Call.pio_sm_clear_fifos lib.pio0 (lib.pio_claim_unused_sm w lib.pio0 true),
          Call.pio_sm_set_clkdiv lib.pio0 (lib.pio_claim_unused_sm w lib.pio0 true) 1 ] ∧
    (((init_neopixel lib w pixel_count gpio1).2.drop w.length).filter Call.is_pio).dropLast
      = (((init_neopixel lib w pixel_count gpio2).2.drop w.length).filter Call.is_pio).dropLast := by
  refine ⟨rfl, rfl, init_neopixel_world lib w pixel_count gpio1, ?_, ?_⟩
  · rw [init_neopixel_world]
    simp [Call.is_pio]
  · rw [init_neopixel_world, init_neopixel_world]
    simp [Call.is_pio]

/-- Claim C7. A pixel count of zero is not rejected: `init_neopixel 0 gpio`
makes the claim, the transfer configuration, the program load, the diagnostic,
the FIFO clear, the clock divider setting and the program start, exactly the
calls it makes for any other count `n`; it returns the handle with the unit,
the claimed slot and `num_pixels = 0`; and a later `write_pixels` through that
handle requests a transfer of `0` bytes. -/
theorem init_neopixel_zero_pixels (lib : PioLib) (w later : World) (gpio n : Nat)
    (data : List Byte) :
    (init_neopixel lib w 0 gpio).2
      = w ++
        [ Call.pio_claim_unused_sm lib.pio0 true,
          Call.pio_sm_config_xfer lib.pio0 (lib.pio_claim_unused_sm w lib.pio0 true)
            xfer_dir.PIO_DIR_TO_SM 256 1,
          Call.pio_add_program lib.pio0 pio_program.ws2812_program,
          Call.printf "Loaded program at %d, using sm %d, gpio %d\n"
            [ ((lib.pio_add_program
                  (w ++ [Call.pio_claim_unused_sm lib.pio0 true,
                         Call.pio_sm_config_xfer lib.pio0 (lib.pio_claim_unused_sm w lib.pio0 true)
                           xfer_dir.PIO_DIR_TO_SM 256 1])
                  lib.pio0 pio_program.ws2812_program : Nat) : Int),
              lib.pio_claim_unused_sm w lib.pio0 true,
              (gpio : Int) ],
          Call.pio_sm_clear_fifos lib.pio0 (lib.pio_claim_unused_sm w lib.pio0 true),
          Call.pio_sm_set_clkdiv lib.pio0 (lib.pio_claim_unused_sm w lib.pio0 true) 1,
          Call.ws2812_program_init lib.pio0 (lib.pio_claim_unused_sm w lib.pio0 true)
            (lib.pio_add_program
              (w ++ [Call.pio_claim_unused_sm lib.pio0 true,
                     Call.pio_sm_config_xfer lib.pio0 (lib.pio_claim_unused_sm w lib.pio0 true)
                       xfer_dir.PIO_DIR_TO_SM 256 1])
              lib.pio0 pio_program.ws2812_program)
            gpio 800000 false ] ∧
    (init_neopixel lib w 0 gpio).2 = (init_neopixel lib w n gpio).2 ∧
    (init_neopixel lib w 0 gpio).1
      = { pio_ptr := lib.pio0, sm := lib.pio_claim_unused_sm w lib.pio0 true, num_pixels := 0 } ∧
    (write_pixels lib later (init_neopixel lib w 0 gpio).1 data).world
      = later ++ [Call.pio_sm_xfer_data lib.pio0 (lib.pio_claim_unused_sm w lib.pio0 true)
                    xfer_dir.PIO_DIR_TO_SM 0 data] := by
  refine ⟨init_neopixel_world lib w 0 gpio, ?_, ?_, ?_⟩
  · rw [init_neopixel_world, init_neopixel_world]
  · rw [init_neopixel_handle]
    rfl
  · rw [write_pixels_world, init_neopixel_handle]
    rfl

/-- Claim C8. For every pixel count and pin, `init_neopixel` makes these calls,
in this order, all on `pio0` and on the slot `s` the claim returned: claim with
`required = true`; configure transfers on `s` as host-to-device, buffer size
256, buffer count 1; load `ws2812_program`, giving offset `o`; (the diagnostic
`printf` of `o`, `s` and the pin); clear the FIFOs of `s`; set the clock
divider of `s` to 1; start the program on `s` with offset `o`, the pin,
frequency 800000 and flag `false`. The calls to the peripheral library are
exactly those six. The handle has `pio_ptr = pio0` and `sm = s`. Another pixel
count changes none of the calls. -/
theorem init_neopixel_call_sequence (lib : PioLib) (w : World) (pixel_count other_count gpio : Nat) :
    (init_neopixel lib w pixel_count gpio).2
      = w ++
        [ Call.pio_claim_unused_sm lib.pio0 true,
          Call.pio_sm_config_xfer lib.pio0 (lib.pio_claim_unused_sm w lib.pio0 true)
            xfer_dir.PIO_DIR_TO_SM 256 1,
          Call.pio_add_program lib.pio0 pio_program.ws2812_program,
          Call.printf "Loaded program at %d, using sm %d, gpio %d\n"
            [ ((lib.pio_add_program
                  (w ++ [Call.pio_claim_unused_sm lib.pio0 true,
                         Call.pio_sm_config_xfer lib.pio0
                           (lib.pio_claim_unused_sm w lib.pio0 true)
                           xfer_dir.PIO_DIR_TO_SM 256 1])
                  lib.pio0 pio_program.ws2812_program : Nat) : Int),
              lib.pio_claim_unused_sm w lib.pio0 true,
              (gpio : Int) ],
          Call.pio_sm_clear_fifos lib.pio0 (lib.pio_claim_unused_sm w lib.pio0 true),
          Call.pio_sm_set_clkdiv lib.pio0 (lib.pio_claim_unused_sm w lib.pio0 true) 1,
          Call.ws2812_program_init lib.pio0 (lib.pio_claim_unused_sm w lib.pio0 true)
            (lib.pio_add_program
              (w ++ [Call.pio_claim_unused_sm lib.pio0 true,
                     Call.pio_sm_config_xfer lib.pio0
                       (lib.pio_claim_unused_sm w lib.pio0 true)
                       xfer_dir.PIO_DIR_TO_SM 256 1])
              lib.pio0 pio_program.ws2812_program)
            gpio 800000 false ] ∧
    ((init_neopixel lib w pixel_count gpio).2.drop w.length).filter Call.is_pio
      = [ Call.pio_claim_unused_sm lib.pio0 true,
          Call.pio_sm_config_xfer lib.pio0 (lib.pio_claim_unused_sm w lib.pio0 true)
            xfer_dir.PIO_DIR_TO_SM 256 1,
          Call.pio_add_program lib.pio0 pio_program.ws2812_program,
          Call.pio_sm_clear_fifos lib.pio0 (lib.pio_claim_unused_sm w lib.pio0 true),
          Call.pio_sm_set_clkdiv lib.pio0 (lib.pio_claim_unused_sm w lib.pio0 true) 1,
          Call.ws2812_program_init lib.pio0 (lib.pio_claim_unused_sm w lib.pio0 true)
            (lib.pio_add_program
              (w ++ [Call.pio_claim_unused_sm lib.pio0 true,
                     Call.pio_sm_config_xfer lib.pio0
                       (lib.pio_claim_unused_sm w lib.pio0 true)
                       xfer_dir.PIO_DIR_TO_SM 256 1])
              lib.pio0 pio_program.ws2812_program)
            gpio 800000 false ] ∧
    (init_neopixel lib w pixel_count gpio).1.pio_ptr = lib.pio0 ∧
    (init_neopixel lib w pixel_count gpio).1.sm = lib.pio_claim_unused_sm w lib.pio0 true ∧
    (init_neopixel lib w other_count gpio).2 = (init_neopixel lib w pixel_count gpio).2 := by
  refine ⟨init_neopixel_world lib w pixel_count gpio, ?_, rfl, rfl, ?_⟩
  · rw [init_neopixel_world]
    simp [Call.is_pio]
  · rw [init_neopixel_world, init_neopixel_world]

/-! ## Transfer -/

/-- Claim C3. For every handle and every buffer of length exactly
`num_pixels * 4`, `write_pixels` returns with the buffer holding what it held
before, byte for byte: the driver stores nothing into the buffer, its one call
hands the buffer to the transfer primitive with direction `PIO_DIR_TO_SM`, and
a host-to-device transfer, as the specification describes the primitive, only
reads the buffer. The answers of the library are otherwise arbitrary. -/
theorem write_pixels_buffer_unchanged (lib : PioLib) (w : World) (h : pio_info_t)
    (data : List Byte) (_hlen : (data.length : Int) = h.num_pixels * 4) :
    (write_pixels (spec_xfer_lib lib) w h data).data = data ∧
    (write_pixels (spec_xfer_lib lib) w h data).world
      = w ++ [Call.pio_sm_xfer_data h.pio_ptr h.sm xfer_dir.PIO_DIR_TO_SM
                (int_mul h.num_pixels 4) data] :=
  ⟨rfl, rfl⟩

/-- Claim C3 on one red pixel written through the one-pixel handle of
`init_neopixel 1 6`. -/
theorem write_pixels_buffer_unchanged_witness :
    ((([0, 255, 0, 0] : List Byte).length : Int)
      = (init_neopixel (spec_xfer_lib fresh_unit_lib) [] 1 6).1.num_pixels * 4) ∧
    (write_pixels (spec_xfer_lib fresh_unit_lib)
      (init_neopixel (spec_xfer_lib fresh_unit_lib) [] 1 6).2
      (init_neopixel (spec_xfer_lib fresh_unit_lib) [] 1 6).1 [0, 255, 0, 0]).data
      = [0, 255, 0, 0] :=
  ⟨by decide,
    (write_pixels_buffer_unchanged fresh_unit_lib
      (init_neopixel (spec_xfer_lib fresh_unit_lib) [] 1 6).2
      (init_neopixel (spec_xfer_lib fresh_unit_lib) [] 1 6).1
      [0, 255, 0, 0] (by decide)).1⟩

/-- Claim C4 fails as stated: a three-byte buffer written through a one-pixel
handle (which wants four bytes) is not refused; `write_pixels` makes its
transfer request, for four bytes. -/
theorem write_pixels_size_mismatch_counterexample :
    ((([0, 0, 0] : List Byte).length : Int)
      ≠ (init_neopixel fresh_unit_lib [] 1 6).1.num_pixels * 4) ∧
    (write_pixels fresh_unit_lib (init_neopixel fresh_unit_lib [] 1 6).2
      (init_neopixel fresh_unit_lib [] 1 6).1 [0, 0, 0]).world
      = (init_neopixel fresh_unit_lib [] 1 6).2
          ++ [Call.pio_sm_xfer_data 4096 0 xfer_dir.PIO_DIR_TO_SM 4 [0, 0, 0]] := by
  decide

/-- Claim C4 as amended. `write_pixels` has no failure result and never looks
at the length of the buffer: for every handle and every buffer whose length is
not `num_pixels * 4`, it makes its one transfer request all the same, for
`num_pixels * 4` bytes, host-to-device, on the caller's buffer. -/
theorem write_pixels_ignores_length (lib : PioLib) (w : World) (h : pio_info_t)
    (data : List Byte) (_hlen : (data.length : Int) ≠ h.num_pixels * 4) :
    (write_pixels lib w h data).world
      = w ++ [Call.pio_sm_xfer_data h.pio_ptr h.sm xfer_dir.PIO_DIR_TO_SM
                (int_mul h.num_pixels 4) data] ∧
    ((write_pixels lib w h data).world.drop w.length).filter Call.is_xfer
      = [Call.pio_sm_xfer_data h.pio_ptr h.sm xfer_dir.PIO_DIR_TO_SM
                (int_mul h.num_pixels 4) data] := by
  rw [write_pixels_world]
  simp [Call.is_xfer]

/-- Claim C4 as amended, on eight bytes written through a one-pixel handle. -/
theorem write_pixels_ignores_length_witness :
    ((([1, 2, 3, 4, 5, 6, 7, 8] : List Byte).length : Int)
      ≠ ({ pio_ptr := 4096, sm := 0, num_pixels := 1 } : pio_info_t).num_pixels * 4) ∧
    (write_pixels fresh_unit_lib [] { pio_ptr := 4096, sm := 0, num_pixels := 1 }
      [1, 2, 3, 4, 5, 6, 7, 8]).world
      = [Call.pio_sm_xfer_data 4096 0 xfer_dir.PIO_DIR_TO_SM 4 [1, 2, 3, 4, 5, 6, 7, 8]] :=
  ⟨by decide,
    (write_pixels_ignores_length fresh_unit_lib [] { pio_ptr := 4096, sm := 0, num_pixels := 1 }
      [1, 2, 3, 4, 5, 6, 7, 8] (by decide)).1⟩

/-- Claim C6. For every handle and buffer, `write_pixels` makes exactly one
call, a transfer request on the handle's own `pio_ptr` and `sm`, with direction
`PIO_DIR_TO_SM`, byte count the `int` product `num_pixels * 4` (the exact
product whenever it does not overflow) and the caller's buffer, bytes in the
caller's order. After `init_neopixel 1 6`, writing `[0, 255, 0, 0]` requests a
4-byte transfer of `[0, 255, 0, 0]`; after `init_neopixel 3 6`, writing twelve
zero bytes requests a 12-byte transfer of twelve zeros. -/
theorem write_pixels_single_transfer (lib : PioLib) (w : World) (h : pio_info_t)
    (data : List Byte) :
    (write_pixels lib w h data).world
      = w ++ [Call.pio_sm_xfer_data h.pio_ptr h.sm xfer_dir.PIO_DIR_TO_SM
                (int_mul h.num_pixels 4) data] ∧
    (int_mul_overflows h.num_pixels 4 = false → int_mul h.num_pixels 4 = h.num_pixels * 4) ∧
    (write_pixels lib (init_neopixel lib w 1 6).2 (init_neopixel lib w 1 6).1
        [0, 255, 0, 0]).world
      = (init_neopixel lib w 1 6).2
          ++ [Call.pio_sm_xfer_data lib.pio0 (lib.pio_claim_unused_sm w lib.pio0 true)
                xfer_dir.PIO_DIR_TO_SM 4 [0, 255, 0, 0]] ∧
    (write_pixels lib (init_neopixel lib w 3 6).2 (init_neopixel lib w 3 6).1
        [0, 0, 0, 0, 0, 0, 0, 0, 0, 0, 0, 0]).world
      = (init_neopixel lib w 3 6).2
          ++ [Call.pio_sm_xfer_data lib.pio0 (lib.pio_claim_unused_sm w lib.pio0 true)
                xfer_dir.PIO_DIR_TO_SM 12 [0, 0, 0, 0, 0, 0, 0, 0, 0, 0, 0, 0]] := by
  refine ⟨rfl, int_mul_exact h.num_pixels 4, ?_, ?_⟩
  · rw [write_pixels_world, init_neopixel_handle]
    rfl
  · rw [write_pixels_world, init_neopixel_handle]
    rfl

/-- Claim C9. The handle is not changed by writing: for every handle and
buffer, the handle behind the pointer after `write_pixels` has the same
`pio_ptr`, `sm` and `num_pixels` as before; and after any number of successive
writes through one handle the handle is still the same and every one of the
requests made names the same unit, the same slot and the same byte count. -/
theorem write_pixels_handle_unchanged (lib : PioLib) (w : World) (h : pio_info_t)
    (data : List Byte) (bufs : List (List Byte)) :
    (write_pixels lib w h data).pio.pio_ptr = h.pio_ptr ∧
    (write_pixels lib w h data).pio.sm = h.sm ∧
    (write_pixels lib w h data).pio.num_pixels = h.num_pixels ∧
    (write_all lib w h bufs).1 = h ∧
    (write_all lib w h bufs).2
      = w ++ bufs.map (fun d =>
          Call.pio_sm_xfer_data h.pio_ptr h.sm xfer_dir.PIO_DIR_TO_SM
            (int_mul h.num_pixels 4) d) := by
  refine ⟨rfl, rfl, rfl, ?_, ?_⟩
  · rw [write_all_eq]
  · rw [write_all_eq]

/-- Claim C10. The transfer length is exact in a bounded range. For every
requested count `n` with `0 ≤ n ≤ 2^29 - 1 = 536870911`, the handle from
`init_neopixel n gpio` stores `n` itself (no wrap in the conversion to `int`),
the product `num_pixels * 4` does not overflow `int`, and the byte count
`write_pixels` requests through that handle is exactly `4 * n`. The bound is
tight: for `n = 2^29` the stored count is still `2^29`, and the product
`4 * 2^29 = 2^31` is above `INT_MAX`, an overflow. -/
theorem transfer_length_exact (lib : PioLib) (w later : World) (n gpio : Nat)
    (data : List Byte) (hn : n ≤ 536870911) :
    (init_neopixel lib w n gpio).1.num_pixels = (n : Int) ∧
    int_mul_overflows (init_neopixel lib w n gpio).1.num_pixels 4 = false ∧
    (write_pixels lib later (init_neopixel lib w n gpio).1 data).world
      = later ++ [Call.pio_sm_xfer_data lib.pio0 (lib.pio_claim_unused_sm w lib.pio0 true)
                    xfer_dir.PIO_DIR_TO_SM (4 * (n : Int)) data] ∧
    (init_neopixel lib w 536870912 gpio).1.num_pixels = 536870912 ∧
    INT_MAX < (init_neopixel lib w 536870912 gpio).1.num_pixels * 4 ∧
    int_mul_overflows (init_neopixel lib w 536870912 gpio).1.num_pixels 4 = true := by
  have hconv : uint_to_int n = (n : Int) := uint_to_int_of_lt n (by omega)
  have hno : int_mul_overflows (n : Int) 4 = false := by
    unfold int_mul_overflows INT_MIN INT_MAX
    simp only [Bool.or_eq_false_iff, decide_eq_false_iff_not, not_lt]
    omega
  have hmul : int_mul (n : Int) 4 = 4 * (n : Int) := by
    rw [int_mul_exact (n : Int) 4 hno]
    ring
  refine ⟨?_, ?_, ?_, ?_, ?_, ?_⟩
  · rw [init_neopixel_handle]
    exact hconv
  · rw [init_neopixel_handle]
    show int_mul_overflows (uint_to_int n) 4 = false
    rw [hconv]
    exact hno
  · rw [write_pixels_world, init_neopixel_handle]
    show later ++ [Call.pio_sm_xfer_data lib.pio0 (lib.pio_claim_unused_sm w lib.pio0 true)
            xfer_dir.PIO_DIR_TO_SM (int_mul (uint_to_int n) 4) data] = _
    rw [hconv, hmul]
  · rw [init_neopixel_handle]
    show uint_to_int 536870912 = 536870912
    decide
  · rw [init_neopixel_handle]
    show INT_MAX < uint_to_int 536870912 * 4
    decide
  · rw [init_neopixel_handle]
    show int_mul_overflows (uint_to_int 536870912) 4 = true
    decide

/-- Claim C10 at the largest count of the range, `2^29 - 1`: the request is for
`2147483644` bytes. -/
theorem transfer_length_exact_witness :
    536870911 ≤ 536870911 ∧
    (init_neopixel fresh_unit_lib [] 536870911 6).1.num_pixels = 536870911 ∧
    (write_pixels fresh_unit_lib [] (init_neopixel fresh_unit_lib [] 536870911 6).1 []).world
      = [Call.pio_sm_xfer_data 4096 0 xfer_dir.PIO_DIR_TO_SM 2147483644 []] :=
  ⟨by decide,
    (transfer_length_exact fresh_unit_lib [] [] 536870911 6 [] (by decide)).1,
    (transfer_length_exact fresh_unit_lib [] [] 536870911 6 [] (by decide)).2.2.1⟩

end Neopixel
